import Mathlib

/-!
Verification of `setplotlib.py`, a post-processing utility for matplotlib
figures.  The module exposes two functions, `set_plot` and `tight_text`.
We give a shallow embedding: the mutable matplotlib object graph becomes
immutable Lean structures, the functions become pure functions from the
old figure state to either an error or the new figure state, and Python
floats become rationals (the real-number semantics of the arithmetic the
code performs).  A raised Python exception is an `Except.error`; where the
figure has already been resolved when the exception is raised, the error
constructor carries the figure state at the raise point, so "the figure
was not modified before the error" is expressible.
-/

namespace Setplotlib

/-- A bounding box, as `matplotlib.transforms.Bbox` with corner points
`[[xmin, ymin], [xmax, ymax]]`. -/
@[ext]
structure Bbox where
  xmin : ℚ
  ymin : ℚ
  xmax : ℚ
  ymax : ℚ
deriving DecidableEq, Repr

/-- A `matplotlib.text.Text` object: its string content, font size and
family, whether a renderer has been attached (`_renderer is not None`),
and its rendered window extent (`get_window_extent()`, in pixels,
meaningful when a renderer is attached). -/
@[ext]
structure TextObj where
  content : String
  size : ℚ
  family : String
  hasRenderer : Bool
  extent : Bbox
deriving DecidableEq, Repr

/-- A spine (border line) of an axes object: its color and line width. -/
@[ext]
structure Spine where
  color : String
  lw : ℚ
deriving DecidableEq, Repr

/-- A tick-mark line object, as returned by `get_xticklines` /
`get_yticklines`: its marker code (matplotlib tick marker codes:
0 = TICKLEFT, 1 = TICKRIGHT, 2 = TICKUP, 3 = TICKDOWN) and marker size. -/
@[ext]
structure TickLine where
  marker : ℤ
  markersize : ℚ
deriving DecidableEq, Repr

/-- A `matplotlib.axes.Axes` object: its position bbox in figure
fraction coordinates, its data lines (opaque handles), its tick-mark
line objects, its four spines, and the tick positions of each axis. -/
@[ext]
structure Axes where
  position : Bbox
  lines : List Nat
  xticklines : List TickLine
  yticklines : List TickLine
  spineLeft : Spine
  spineRight : Spine
  spineTop : Spine
  spineBottom : Spine
  xticksPosition : String
  yticksPosition : String
deriving DecidableEq, Repr

/-- A `matplotlib.figure.Figure` object: width and height in inches,
dots per inch, child axes (`get_axes()`), and all text objects reachable
from the figure (`findobj(matplotlib.text.Text)`). -/
@[ext]
structure Figure where
  width : ℚ
  height : ℚ
  dpi : ℚ
  axes : List Axes
  texts : List TextObj
deriving DecidableEq, Repr

/-- An element of a list passed as the `h_f` argument: either an object
bearing a `get_axes` attribute (whose axes' parent figure is recorded),
or an object without that attribute. -/
inductive ListElem where
  | bearing (f : Figure)
  | plain
deriving DecidableEq, Repr

/-- The polymorphic `h_f` argument accepted by `set_plot` and
`tight_text`.  Each constructor is one shape the `elif` chain can
distinguish; constructors resolving through the object graph
(`get_figure()`, `get_axes().get_figure()`) carry the figure the graph
walk reaches. -/
inductive Handle where
  | noArg
  | num (n : ℤ)
  | fig (f : Figure)
  | axes (a : Axes) (parent : Figure)
  | axesBearing (f : Figure)
  | listOf (elems : List ListElem)
  | other
deriving DecidableEq, Repr

/-- The exceptions the two functions can raise.  `inputError` is the
`ValueError` from input resolution; `emptyFigureError` is the
`ImportError("No axes to manipulate!")` raised on a figure with no axes
(it carries the resolved figure state at the raise point);
`subplotsUnsupportedError` is the error the specification's stricter
revisions raise on multiple axes (never raised by this code, present so
that statements about it can be made); `indexError` is the Python
`IndexError` from evaluating `h_f[0]` on an empty list;
`attributeError` is the Python `AttributeError` raised by line 251 of
`tight_text`, which calls `matplotlib.pyplot.drawifinteractive()` — an
attribute that does not exist in matplotlib (the real name is
`draw_if_interactive`), so the lookup fails unconditionally; it carries
the figure state at the raise point, after `set_position` at line 249
has already run. -/
inductive PlotError where
  | inputError (msg : String)
  | emptyFigureError (f : Figure)
  | subplotsUnsupportedError (f : Figure)
  | indexError
  | attributeError (f : Figure)
deriving DecidableEq, Repr

/-- The ambient pyplot state and external services: interactive mode
(`matplotlib.pyplot.isinteractive()`), the current figure used by
`gcf()` when one exists, the figure registry behind
`matplotlib.pyplot.figure(n)`, and the external `tight_layout` engine,
modelled as assigning each axes (by index) a new position computed from
the whole figure and the pad. -/
structure Context where
  interactive : Bool
  gcf : Option Figure
  figureByNum : ℤ → Figure
  tightLayoutPos : Figure → ℚ → Nat → Bbox

/-- Input resolution: the `elif` chain at lines 38–63 of `set_plot`,
which appears verbatim again at lines 160–185 of `tight_text`.  Match
arms follow the source order: `None` (try `gcf()`), `int`
(`figure(h_f)`), `Figure`, `Axes` (`get_figure()`), any object with a
`get_axes` attribute (`get_axes().get_figure()`), a list whose first
element has a `get_axes` attribute — note the source evaluates `h_f[0]`
inside the `and` before knowing the list is non-empty, so an empty list
raises `IndexError` — and finally the `ValueError` for everything
else. -/
def resolve_figure (ctx : Context) (h_f : Handle) : Except PlotError Figure :=
  match h_f with
  | .noArg =>
    match ctx.gcf with
    | some f => .ok f
    | none => .error (.inputError "No figures have been drawn.")
  | .num n => .ok (ctx.figureByNum n)
  | .fig f => .ok f
  | .axes _ parent => .ok parent
  | .axesBearing f => .ok f
  | .listOf elems =>
    match elems with
    | [] => .error .indexError
    | .bearing f :: _ => .ok f
    | .plain :: _ => .error (.inputError "Input type not recognized.")
  | .other => .error (.inputError "Input type not recognized.")

/-- The size-normalization step of `set_plot` (lines 73–93): read the
current width, height and dpi, set the width to 3.25 in, keep the aspect
ratio `AR_f_i = L_y_i / L_x_i`, and scale the dpi by `L_x_i / L_x` so
the on-screen pixel size is unchanged. -/
def resizeFig (f : Figure) : Figure :=
  let lxi := f.width
  let lyi := f.height
  let arfi := lyi / lxi
  let dpifi := f.dpi
  let lx : ℚ := 13 / 4
  let arf := arfi
  let ly := lx * arf
  let dpif := lxi / lx * dpifi
  { f with width := lx, height := ly, dpi := dpif }

/-- The per-text styling of `set_plot` (lines 98–102): font size 9,
family Times New Roman. -/
def setTextStyle (t : TextObj) : TextObj :=
  { t with size := 9, family := "Times New Roman" }

/-- The per-axes styling of `set_plot` (lines 105–124): x tick marks to
marker 3 (TICKDOWN) and y tick marks to marker 0 (TICKLEFT), both at
marker size 2; right and top spines to color none; left and bottom
spines to line width 0.8; ticks only on the bottom and left. -/
def setAxesStyle (a : Axes) : Axes :=
  { a with
    xticklines := a.xticklines.map fun t => { t with marker := 3, markersize := 2 }
    yticklines := a.yticklines.map fun t => { t with marker := 0, markersize := 2 }
    spineRight := { a.spineRight with color := "none" }
    spineTop := { a.spineTop with color := "none" }
    spineLeft := { a.spineLeft with lw := 4 / 5 }
    spineBottom := { a.spineBottom with lw := 4 / 5 }
    xticksPosition := "bottom"
    yticksPosition := "left" }

/-- Application of the externally computed tight-layout positions: the
axes at index `i` gets the position `g i`. -/
def tightLayoutAxes (g : Nat → Bbox) : Nat → List Axes → List Axes
  | _, [] => []
  | i, a :: rest => { a with position := g i } :: tightLayoutAxes g (i + 1) rest

/-- The figure state after the body of `set_plot`: size normalization
(lines 73–93), text styling (lines 96–102), axes styling (lines
105–124), and `tight_layout(pad=0.2)` (line 131). -/
def spFinal (ctx : Context) (f : Figure) : Figure :=
  let f1 := resizeFig f
  let f2 := { f1 with texts := f1.texts.map setTextStyle }
  let f3 := { f2 with axes := f2.axes.map setAxesStyle }
  { f3 with axes := tightLayoutAxes (ctx.tightLayoutPos f3 (1 / 5)) 0 f3.axes }

/-- A value of the returned dictionary. -/
inductive HVal where
  | vfig (f : Figure)
  | vaxes (a : List Axes)
  | vlines (l : List (List Nat))
  | vtext (t : List TextObj)
deriving DecidableEq, Repr

/-- The dictionary literal built at lines 134–140 of `set_plot`.  In the
source the values are aliases into the mutated object graph, so each is
the corresponding component of the final figure state. -/
def spDict (f4 : Figure) : List (String × HVal) :=
  [("figure", HVal.vfig f4),
   ("axes", HVal.vaxes f4.axes),
   ("lines", HVal.vlines (f4.axes.map Axes.lines)),
   ("text", HVal.vtext f4.texts)]

/-- The function `set_plot` (lines 18–142): resolve the input, raise on a figure with
no axes, normalize sizes, restyle text and axes, run tight layout, and
return the handle dictionary together with the final figure state. -/
def set_plot (ctx : Context) (h_f : Handle) :
    Except PlotError (Figure × List (String × HVal)) :=
  match resolve_figure ctx h_f with
  | .error e => .error e
  | .ok f =>
    if f.axes.length = 0 then
      .error (.emptyFigureError f)
    else
      .ok (spFinal ctx f, spDict (spFinal ctx f))

/-- The function `tight_text` (lines 145–251): resolve the input, raise on a figure
with no axes, take the FIRST axes (`h_a = h_a[0]`, line 194), compute
margins — in interactive mode by scanning the window extents of all
rendered non-empty text objects against the first axes' current
position, otherwise by the fixed estimates 0.3/0.06/0.3/0.08 — add the
2/72 in buffers, and set the first axes' position to the resulting box
in figure-fraction coordinates.  The remaining axes are untouched.
Finally, line 251 calls `matplotlib.pyplot.drawifinteractive()`: that
attribute does not exist (the real pyplot name is
`draw_if_interactive`), so after the position is set the function
always raises `AttributeError` and never returns normally; the error
carries the figure state at that point, with the new first-axes
position already applied. -/
def tight_text (ctx : Context) (h_f : Handle) : Except PlotError Figure :=
  match resolve_figure ctx h_f with
  | .error e => .error e
  | .ok f =>
    match f.axes with
    | [] => .error (.emptyFigureError f)
    | ha :: rest =>
      let bl : ℚ := 2 / 72
      let br : ℚ := 2 / 72
      let bb : ℚ := 2 / 72
      let bt : ℚ := 2 / 72
      let lx := f.width
      let ly := f.height
      let dpif := f.dpi
      let margins : ℚ × ℚ × ℚ × ℚ :=
        if ctx.interactive then
          let ts := f.texts.filter fun t => t.hasRenderer && !(t.content == "")
          let xmin := ts.foldl (fun m t => min m t.extent.xmin) (lx * dpif)
          let xmax := ts.foldl (fun m t => max m t.extent.xmax) 0
          let ymin := ts.foldl (fun m t => min m t.extent.ymin) (ly * dpif)
          let ymax := ts.foldl (fun m t => max m t.extent.ymax) 0
          let bbai := ha.position
          (bbai.xmin * lx - xmin / dpif,
           -(bbai.xmax * lx) + xmax / dpif,
           bbai.ymin * ly - ymin / dpif,
           -(bbai.ymax * ly) + ymax / dpif)
        else
          (3 / 10, 3 / 50, 3 / 10, 2 / 25)
      let xmina := (margins.1 + bl) / lx
      let ymina := (margins.2.2.1 + bb) / ly
      let xmaxa := 1 - (margins.2.1 + br) / lx
      let ymaxa := 1 - (margins.2.2.2 + bt) / ly
      .error (.attributeError
        { f with axes := { ha with position := ⟨xmina, ymina, xmaxa, ymaxa⟩ } :: rest })

/-! ### Concrete sample objects, used by the witness theorems. -/

/-- A sample axes position box. -/
def bb0 : Bbox := ⟨1 / 8, 1 / 8, 9 / 10, 9 / 10⟩

/-- A sample spine: black at line width 1. -/
def spine0 : Spine := ⟨"black", 1⟩

/-- A sample tick line: marker TICKUP, size 4. -/
def tick0 : TickLine := ⟨2, 4⟩

/-- A sample axes object with two data lines. -/
def axes0 : Axes :=
  { position := bb0
    lines := [0, 1]
    xticklines := [tick0]
    yticklines := [tick0]
    spineLeft := spine0
    spineRight := spine0
    spineTop := spine0
    spineBottom := spine0
    xticksPosition := "default"
    yticksPosition := "default" }

/-- A sample text object with no attached renderer. -/
def text0 : TextObj := ⟨"hello", 12, "DejaVu Sans", false, bb0⟩

/-- A figure with no axes. -/
def fig0 : Figure := { width := 8, height := 6, dpi := 80, axes := [], texts := [] }

/-- A figure with one axes. -/
def fig1 : Figure := { width := 8, height := 6, dpi := 80, axes := [axes0], texts := [text0] }

/-- A figure with two axes. -/
def fig2 : Figure :=
  { width := 8, height := 6, dpi := 80, axes := [axes0, axes0], texts := [text0] }

/-- A sample non-interactive context with no current figure. -/
def ctx0 : Context :=
  { interactive := false
    gcf := Option.none
    figureByNum := fun _ => fig1
    tightLayoutPos := fun _ _ _ => bb0 }

/-! ### Claim theorems -/

/-- C1: for every figure with at least one plot area, after `set_plot`
completes the figure width is exactly 3.25 in, the aspect ratio
height/width is unchanged, and the product width·dpi (the on-screen
pixel footprint) is unchanged. -/
theorem set_plot_width_aspect_dpi (ctx : Context) (f : Figure)
    (hax : f.axes ≠ []) (hw : 0 < f.width) :
    ∃ fo d, set_plot ctx (Handle.fig f) = Except.ok (fo, d) ∧
      fo.width = 13 / 4 ∧
      fo.height / fo.width = f.height / f.width ∧
      fo.width * fo.dpi = f.width * f.dpi := by
  have hlen : f.axes.length ≠ 0 := by
    simpa using hax
  refine ⟨spFinal ctx f, spDict (spFinal ctx f), ?_, ?_, ?_, ?_⟩
  · simp [set_plot, resolve_figure, hlen]
  · rfl
  · show (13 / 4 : ℚ) * (f.height / f.width) / (13 / 4) = f.height / f.width
    rw [mul_div_cancel_left₀]
    norm_num
  · show (13 / 4 : ℚ) * (f.width / (13 / 4) * f.dpi) = f.width * f.dpi
    rw [← mul_assoc, mul_div_cancel₀]
    norm_num

/-- Witness for C1 at a concrete one-axes figure. -/
theorem set_plot_width_aspect_dpi_witness :
    ∃ fo d, set_plot ctx0 (Handle.fig fig1) = Except.ok (fo, d) ∧
      fo.width = 13 / 4 ∧
      fo.height / fo.width = fig1.height / fig1.width ∧
      fo.width * fo.dpi = fig1.width * fig1.dpi :=
  set_plot_width_aspect_dpi ctx0 fig1 (by decide) (by decide)

/-- C2: the size-normalization step is idempotent: a second application
leaves width, and the height and dpi re-derived from it, equal to the
result of the first application. -/
theorem resizeFig_idempotent (f : Figure) (hax : f.axes ≠ []) (hw : 0 < f.width) :
    resizeFig (resizeFig f) = resizeFig f := by
  ext1
  · rfl
  · show (13 / 4 : ℚ) * (13 / 4 * (f.height / f.width) / (13 / 4)) =
      13 / 4 * (f.height / f.width)
    rw [mul_div_cancel_left₀]
    norm_num
  · show (13 / 4 : ℚ) / (13 / 4) * (f.width / (13 / 4) * f.dpi) =
      f.width / (13 / 4) * f.dpi
    rw [div_self, one_mul]
    norm_num
  · rfl
  · rfl

/-- Witness for C2 at a concrete one-axes figure. -/
theorem resizeFig_idempotent_witness :
    resizeFig (resizeFig fig1) = resizeFig fig1 :=
  resizeFig_idempotent fig1 (by decide) (by decide)

/-- Inversion for a successful `set_plot` run: the input resolved to
some figure, and the returned figure and dictionary are the pipeline
applied to it. -/
lemma set_plot_ok_inv (ctx : Context) (h : Handle) (fo : Figure)
    (d : List (String × HVal)) (hok : set_plot ctx h = Except.ok (fo, d)) :
    ∃ f, resolve_figure ctx h = Except.ok f ∧
      fo = spFinal ctx f ∧ d = spDict (spFinal ctx f) := by
  cases hres : resolve_figure ctx h with
  | error e => simp [set_plot, hres] at hok
  | ok f =>
    refine ⟨f, rfl, ?_⟩
    simp only [set_plot, hres] at hok
    split at hok
    · exact absurd hok (by simp)
    · simpa [eq_comm] using hok

/-- The texts of the pipeline output are the styled input texts. -/
lemma spFinal_texts (ctx : Context) (f : Figure) :
    (spFinal ctx f).texts = f.texts.map setTextStyle := rfl

/-- The axes of the pipeline output are the styled input axes with
tight-layout positions applied. -/
lemma spFinal_axes (ctx : Context) (f : Figure) :
    (spFinal ctx f).axes =
      tightLayoutAxes
        (ctx.tightLayoutPos
          { resizeFig f with
            texts := (resizeFig f).texts.map setTextStyle
            axes := (resizeFig f).axes.map setAxesStyle } (1 / 5))
        0 ((resizeFig f).axes.map setAxesStyle) := rfl

/-- Every element of a tight-layout application is an input element
with only its position replaced. -/
lemma mem_tightLayoutAxes (g : Nat → Bbox) (i : Nat) (as : List Axes) (a : Axes)
    (hmem : a ∈ tightLayoutAxes g i as) :
    ∃ b ∈ as, ∃ j, a = { b with position := g j } := by
  induction as generalizing i with
  | nil => simp [tightLayoutAxes] at hmem
  | cons hd tl ih =>
    rw [tightLayoutAxes] at hmem
    rcases List.mem_cons.mp hmem with h1 | h2
    · exact ⟨hd, List.mem_cons_self hd tl, i, h1⟩
    · rcases ih (i + 1) h2 with ⟨b, hb, j, hj⟩
      exact ⟨b, List.mem_cons_of_mem hd hb, j, hj⟩

/-- The output of `set_plot` on the sample one-axes figure, used by the
witness theorems below. -/
def spOut : Figure × List (String × HVal) :=
  (set_plot ctx0 (Handle.fig fig1)).toOption.getD (fig0, [])

/-- C5: after `set_plot` completes, every text element reachable from
the figure has font size 9 and family Times New Roman. -/
theorem set_plot_text_style (ctx : Context) (h : Handle) (fo : Figure)
    (d : List (String × HVal)) (hok : set_plot ctx h = Except.ok (fo, d)) :
    ∀ t ∈ fo.texts, t.size = 9 ∧ t.family = "Times New Roman" := by
  obtain ⟨f, _, hfo, _⟩ := set_plot_ok_inv ctx h fo d hok
  subst hfo
  intro t ht
  rw [spFinal_texts] at ht
  rcases List.mem_map.mp ht with ⟨t0, _, rfl⟩
  exact ⟨rfl, rfl⟩

/-- The first text element of the sample output figure. -/
def textOutW : TextObj := setTextStyle text0

/-- Witness for C5: the concrete first text element of the sample
output figure has the required font properties. -/
theorem set_plot_text_style_witness :
    textOutW.size = 9 ∧ textOutW.family = "Times New Roman" :=
  set_plot_text_style ctx0 (Handle.fig fig1) spOut.1 spOut.2 rfl textOutW
    (by
      have h : spOut.1.texts = textOutW :: [] := rfl
      rw [h]
      exact List.mem_cons_self _ _)

/-- C6: after `set_plot` completes, every plot area has hidden top and
right spines, left and bottom spines at line width 0.8, tick positions
only bottom and left, and tick marks with the outward-facing marker
codes (3 = TICKDOWN on x, 0 = TICKLEFT on y) at marker size 2. -/
theorem set_plot_axes_style (ctx : Context) (h : Handle) (fo : Figure)
    (d : List (String × HVal)) (hok : set_plot ctx h = Except.ok (fo, d)) :
    ∀ a ∈ fo.axes,
      a.spineTop.color = "none" ∧ a.spineRight.color = "none" ∧
      a.spineLeft.lw = 4 / 5 ∧ a.spineBottom.lw = 4 / 5 ∧
      a.xticksPosition = "bottom" ∧ a.yticksPosition = "left" ∧
      (∀ t ∈ a.xticklines, t.marker = 3 ∧ t.markersize = 2) ∧
      (∀ t ∈ a.yticklines, t.marker = 0 ∧ t.markersize = 2) := by
  obtain ⟨f, _, hfo, _⟩ := set_plot_ok_inv ctx h fo d hok
  subst hfo
  intro a ha
  rw [spFinal_axes] at ha
  obtain ⟨b, hb, j, rfl⟩ := mem_tightLayoutAxes _ 0 _ a ha
  rcases List.mem_map.mp hb with ⟨b0, _, rfl⟩
  refine ⟨rfl, rfl, rfl, rfl, rfl, rfl, ?_, ?_⟩
  · intro t ht
    rcases List.mem_map.mp ht with ⟨t0, _, rfl⟩
    exact ⟨rfl, rfl⟩
  · intro t ht
    rcases List.mem_map.mp ht with ⟨t0, _, rfl⟩
    exact ⟨rfl, rfl⟩

/-- The first axes of the sample output figure: the styled sample axes
with the sample tight-layout position. -/
def axesOutW : Axes := { setAxesStyle axes0 with position := bb0 }

/-- The first x tick line of the first axes of the sample output
figure. -/
def xtickOutW : TickLine := { tick0 with marker := 3, markersize := 2 }

/-- The first y tick line of the first axes of the sample output
figure. -/
def ytickOutW : TickLine := { tick0 with marker := 0, markersize := 2 }

/-- Witness for C6: the concrete first axes of the sample output figure
has the required spine, tick-position and tick-marker properties. -/
theorem set_plot_axes_style_witness :
    axesOutW.spineTop.color = "none" ∧ axesOutW.spineRight.color = "none" ∧
    axesOutW.spineLeft.lw = 4 / 5 ∧ axesOutW.spineBottom.lw = 4 / 5 ∧
    axesOutW.xticksPosition = "bottom" ∧ axesOutW.yticksPosition = "left" ∧
    (xtickOutW.marker = 3 ∧ xtickOutW.markersize = 2) ∧
    (ytickOutW.marker = 0 ∧ ytickOutW.markersize = 2) := by
  have hmem : axesOutW ∈ spOut.1.axes := by
    have h : spOut.1.axes = axesOutW :: [] := rfl
    rw [h]
    exact List.mem_cons_self _ _
  have h := set_plot_axes_style ctx0 (Handle.fig fig1) spOut.1 spOut.2 rfl axesOutW hmem
  refine ⟨h.1, h.2.1, h.2.2.1, h.2.2.2.1, h.2.2.2.2.1, h.2.2.2.2.2.1, ?_, ?_⟩
  · refine h.2.2.2.2.2.2.1 xtickOutW ?_
    have hx : axesOutW.xticklines = xtickOutW :: [] := rfl
    rw [hx]
    exact List.mem_cons_self _ _
  · refine h.2.2.2.2.2.2.2 ytickOutW ?_
    have hy : axesOutW.yticklines = ytickOutW :: [] := rfl
    rw [hy]
    exact List.mem_cons_self _ _

/-- C9: on success, `set_plot` returns the dictionary with exactly the
four keys figure, axes, lines and text, in that order, holding the
returned figure, its axes list, one list of line handles per axes in
the same order, and the figure's text elements. -/
theorem set_plot_dict_shape (ctx : Context) (h : Handle) (fo : Figure)
    (d : List (String × HVal)) (hok : set_plot ctx h = Except.ok (fo, d)) :
    d = [("figure", HVal.vfig fo),
         ("axes", HVal.vaxes fo.axes),
         ("lines", HVal.vlines (fo.axes.map Axes.lines)),
         ("text", HVal.vtext fo.texts)] := by
  obtain ⟨f, _, hfo, hd⟩ := set_plot_ok_inv ctx h fo d hok
  subst hfo
  subst hd
  rfl

/-- Witness for C9 at the sample one-axes figure. -/
theorem set_plot_dict_shape_witness :
    spOut.2 = [("figure", HVal.vfig spOut.1),
               ("axes", HVal.vaxes spOut.1.axes),
               ("lines", HVal.vlines (spOut.1.axes.map Axes.lines)),
               ("text", HVal.vtext spOut.1.texts)] :=
  set_plot_dict_shape ctx0 (Handle.fig fig1) spOut.1 spOut.2 rfl

/-- C4: when the resolved figure has no axes, both `set_plot` and
`tight_text` raise the empty-figure error, and the error carries the
figure state at the raise point, which is exactly the unmodified input
figure: no size, font or position property was touched first. -/
theorem empty_figure_error_unchanged (ctx : Context) (h : Handle) (f : Figure)
    (hres : resolve_figure ctx h = Except.ok f) (hax : f.axes = []) :
    set_plot ctx h = Except.error (PlotError.emptyFigureError f) ∧
    tight_text ctx h = Except.error (PlotError.emptyFigureError f) := by
  constructor
  · simp [set_plot, hres, hax]
  · simp [tight_text, hres, hax]

/-- Witness for C4 at a concrete axes-free figure. -/
theorem empty_figure_error_unchanged_witness :
    set_plot ctx0 (Handle.fig fig0) = Except.error (PlotError.emptyFigureError fig0) ∧
    tight_text ctx0 (Handle.fig fig0) = Except.error (PlotError.emptyFigureError fig0) :=
  empty_figure_error_unchanged ctx0 (Handle.fig fig0) fig0 rfl rfl

/-- C7: in a non-interactive environment, `tight_text` does not measure
any text extent: it sets the first axes' position purely from the fixed
margin estimates 0.3 (left), 0.06 (right), 0.3 (bottom), 0.08 (top)
plus the 2/72 in buffer, divided by the figure's current width and
height, so the position is independent of the figure's text content (no
text extent appears in it).  The function then raises the attribute
error of the misspelled line-251 draw call; the error payload is the
figure with exactly that text-independent position applied to the first
axes and everything else unchanged. -/
theorem tight_text_noninteractive_margins (ctx : Context) (f : Figure)
    (a : Axes) (rest : List Axes)
    (hint : ctx.interactive = false) (hax : f.axes = a :: rest) :
    tight_text ctx (Handle.fig f) = Except.error (PlotError.attributeError
      { f with axes :=
        { a with position :=
          ⟨(3 / 10 + 2 / 72) / f.width,
           (3 / 10 + 2 / 72) / f.height,
           1 - (3 / 50 + 2 / 72) / f.width,
           1 - (2 / 25 + 2 / 72) / f.height⟩ } :: rest }) := by
  simp only [tight_text, resolve_figure, hax, hint]
  norm_num

/-- Witness for C7 at a concrete one-axes figure in the non-interactive
sample context. -/
theorem tight_text_noninteractive_margins_witness :
    tight_text ctx0 (Handle.fig fig1) = Except.error (PlotError.attributeError
      { fig1 with axes :=
        { axes0 with position :=
          ⟨(3 / 10 + 2 / 72) / fig1.width,
           (3 / 10 + 2 / 72) / fig1.height,
           1 - (3 / 50 + 2 / 72) / fig1.width,
           1 - (2 / 25 + 2 / 72) / fig1.height⟩ } :: [] }) :=
  tight_text_noninteractive_margins ctx0 fig1 axes0 [] rfl rfl

/-- C10: for the empty-list argument, the dispatch test itself evaluates
the first list element before establishing non-emptiness, so both
functions raise the index error — and since the result is exactly the
index error, neither raises the documented unrecognized-input error. -/
theorem empty_list_index_error (ctx : Context) :
    set_plot ctx (Handle.listOf []) = Except.error PlotError.indexError ∧
    tight_text ctx (Handle.listOf []) = Except.error PlotError.indexError :=
  ⟨rfl, rfl⟩

/-- Counterexample for C8, at two concrete inputs outside the
documented set, neither of which fails with the unrecognized-input
error: a bare axes-bearing object that is not a figure, axes, integer,
or list (accepted through `get_axes().get_figure()`, line 55), and a
TWO-element list whose first element bears axes (the line-58 test only
looks at `h_f[0]`, so the documented single-element restriction is not
enforced). -/
theorem resolve_beyond_documented_accepted :
    resolve_figure ctx0 (Handle.axesBearing fig1) = Except.ok fig1 ∧
    resolve_figure ctx0
        (Handle.listOf [ListElem.bearing fig1, ListElem.plain]) =
      Except.ok fig1 :=
  ⟨rfl, rfl⟩

/-- Modelled from the spec: the set of accepted input variants of §4.1
(no argument with an active figure, integer identifier, figure
reference, axes reference, collection whose element bears axes),
amended exactly as the counterexample forces, in two places: a bare
object bearing a `get_axes` attribute is also accepted, and the
documented single-element collection is broadened to a list of ANY
length whose FIRST element bears axes (the elements after the first are
ignored). -/
def acceptedInputSpec (ctx : Context) (h : Handle) : Bool :=
  match h with
  | .noArg => ctx.gcf.isSome
  | .num _ => true
  | .fig _ => true
  | .axes _ _ => true
  | .axesBearing _ => true
  | .listOf (ListElem.bearing _ :: _) => true
  | .listOf _ => false
  | .other => false

/-- C8 (amended): figure resolution succeeds exactly on the documented
variants extended in the two ways the counterexample exhibits — bare
axes-bearing objects are accepted, and the collection variant accepts
any list whose first element bears axes regardless of length; every
argument outside this extended set other than the empty list —
including an absent argument when no active figure exists — fails with
the input error (the empty list instead raises the index error, see
C10). -/
theorem resolve_accepts_characterization (ctx : Context) (h : Handle) :
    ((resolve_figure ctx h).isOk = true ↔ acceptedInputSpec ctx h = true) ∧
    (acceptedInputSpec ctx h = false → h ≠ Handle.listOf [] →
      ∃ m, resolve_figure ctx h = Except.error (PlotError.inputError m)) := by
  cases h with
  | noArg =>
    cases hg : ctx.gcf with
    | none =>
      exact ⟨by simp [resolve_figure, acceptedInputSpec, hg, Except.isOk, Except.toBool],
        fun _ _ => ⟨"No figures have been drawn.", by simp [resolve_figure, hg]⟩⟩
    | some f =>
      exact ⟨by simp [resolve_figure, acceptedInputSpec, hg, Except.isOk, Except.toBool],
        by simp [acceptedInputSpec, hg]⟩
  | num n =>
    exact ⟨by simp [resolve_figure, acceptedInputSpec, Except.isOk, Except.toBool],
      by simp [acceptedInputSpec]⟩
  | fig f =>
    exact ⟨by simp [resolve_figure, acceptedInputSpec, Except.isOk, Except.toBool],
      by simp [acceptedInputSpec]⟩
  | axes a p =>
    exact ⟨by simp [resolve_figure, acceptedInputSpec, Except.isOk, Except.toBool],
      by simp [acceptedInputSpec]⟩
  | axesBearing f =>
    exact ⟨by simp [resolve_figure, acceptedInputSpec, Except.isOk, Except.toBool],
      by simp [acceptedInputSpec]⟩
  | listOf elems =>
    match elems with
    | [] =>
      exact ⟨by simp [resolve_figure, acceptedInputSpec, Except.isOk, Except.toBool],
        fun _ hne => absurd rfl hne⟩
    | .bearing f :: rest =>
      exact ⟨by simp [resolve_figure, acceptedInputSpec, Except.isOk, Except.toBool],
        by simp [acceptedInputSpec]⟩
    | .plain :: rest =>
      exact ⟨by simp [resolve_figure, acceptedInputSpec, Except.isOk, Except.toBool],
        fun _ _ => ⟨"Input type not recognized.", by simp [resolve_figure]⟩⟩
  | other =>
    exact ⟨by simp [resolve_figure, acceptedInputSpec, Except.isOk, Except.toBool],
      fun _ _ => ⟨"Input type not recognized.", by simp [resolve_figure]⟩⟩

/-- Witness for C8 at the unrecognized sample input in the sample
context. -/
theorem resolve_accepts_characterization_witness :
    ((resolve_figure ctx0 Handle.other).isOk = true ↔
      acceptedInputSpec ctx0 Handle.other = true) ∧
    (∃ m, resolve_figure ctx0 Handle.other =
      Except.error (PlotError.inputError m)) :=
  ⟨(resolve_accepts_characterization ctx0 Handle.other).1,
   (resolve_accepts_characterization ctx0 Handle.other).2 rfl
     (fun hcon => Handle.noConfusion hcon)⟩

/-- The position `tight_text` assigns to the first axes of the sample
two-axes figure in the non-interactive sample context. -/
def posCex : Bbox := ⟨59 / 1440, 59 / 1080, 7121 / 7200, 5303 / 5400⟩

/-- The sample two-axes figure at the raise point of `tight_text`: the
first plot area already repositioned. -/
def fig2cex : Figure :=
  { fig2 with axes := { axes0 with position := posCex } :: [axes0] }

/-- Counterexample for C3: on a figure with two plot areas, `tight_text`
does not fail with the subplots-unsupported error — it repositions the
first plot area and then raises the attribute error of the misspelled
line-251 draw call, whose payload shows a plot-area position was
changed before the raise. -/
theorem tight_text_two_axes_cex :
    tight_text ctx0 (Handle.fig fig2) =
      Except.error (PlotError.attributeError fig2cex) ∧
    fig2cex.axes.map Axes.position ≠ fig2.axes.map Axes.position := by
  constructor
  · simp only [tight_text, resolve_figure, fig2, ctx0]
    norm_num [fig2cex, fig2, posCex, axes0, bb0]
  · norm_num [fig2cex, fig2, posCex, axes0, bb0]

/-- C3 (amended): on a figure with two or more plot areas, `tight_text`
does not raise the subplots-unsupported error, and it does change a
plot-area position: it repositions the first plot area, leaves the
positions of all remaining plot areas unchanged, and then raises the
attribute error of the misspelled line-251 draw call, carrying that
mutated figure state.  (`set_plot` raises nothing for subplots either:
it applies the external tight-layout fallback across all plot
areas.) -/
theorem tight_text_multi_axes_first_only (ctx : Context) (f : Figure)
    (a : Axes) (rest : List Axes)
    (hax : f.axes = a :: rest) (hrest : rest ≠ []) :
    ∃ p, tight_text ctx (Handle.fig f) = Except.error (PlotError.attributeError
      { f with axes := { a with position := p } :: rest }) := by
  simp only [tight_text, resolve_figure, hax]
  exact ⟨_, rfl⟩

/-- Witness for C3 (amended) at the sample two-axes figure. -/
theorem tight_text_multi_axes_first_only_witness :
    ∃ p, tight_text ctx0 (Handle.fig fig2) = Except.error (PlotError.attributeError
      { fig2 with axes := { axes0 with position := p } :: [axes0] }) :=
  tight_text_multi_axes_first_only ctx0 fig2 axes0 [axes0] rfl
    (fun hcon => List.noConfusion hcon)

end Setplotlib
